import Mathlib

/-!
Verification of the coding-agent repository's core components against its
specification.  The development shallowly embeds, directly from the Python
sources:

* the persistent capability library (`tool_library/__init__.py`):
  registry entries, `register_tool`, `remove_tool`, `load_tools`;
* the generated-tool validator (`tool_gen/pipeline.py`, `_validate_tool_code`)
  over a small model of Python values and namespaces;
* the capability dispatchers (`evals/harness.py` `_build_toolbox`,
  `agent_loop/tools/__init__.py` `dispatch`) with Python keyword-argument
  binding made explicit;
* the generation-feedback redaction (`_extract_agent_observable_signals`,
  `_generation_feedback`);
* the agent conversation loop (`agent_loop/agent.py`, `Agent.run`) with the
  inference client modelled as a per-turn response script and the harness's
  `recording_dispatch` threading the trajectory;
* the entry into `run_pipeline`'s per-task generation loop, whose first
  statement accesses a `tool_library` attribute this code base does not
  define (modelled through the module's table of defined names).

File-system state is modelled explicitly (a list of relative paths on disk,
and an association of paths to module-load outcomes where `load_tools` needs
them); wall-clock timestamps and durations are passed in as data or omitted
where no claim depends on them.
-/

namespace Spec2Proof

/-! ### Capability library registry (`src/tool_library/__init__.py`)

A registry entry mirrors the dict appended by `register_tool` (lines 54-62):
`name`, `file` (path relative to the library dir), `generated_from_task`,
`generated_by_model`, `verified`, `verified_with_model`, `created_at`.
`verified` is `Option Bool` because `load_tools` reads it with
`entry.get("verified")`, which distinguishes an absent key (`none`) from a
stored boolean.  `created_at` (`datetime.now().isoformat()`) is an opaque
string supplied by the caller as `now`. -/

structure ToolEntry where
  name : String
  file : String
  generated_from_task : String
  generated_by_model : String
  verified : Option Bool
  verified_with_model : String
  created_at : String
  deriving DecidableEq, Repr

/-- The library's persistent state: the registry's `tools` list
(`registry.json`) and the set of files on disk under the library directory,
as relative paths (e.g. `"generated/foo.py"`). -/
structure LibState where
  tools : List ToolEntry
  files : List String
  deriving DecidableEq, Repr

/-- `register_tool` (`tool_library/__init__.py` lines 51-63): drop every
registry entry sharing `name`, then append the new entry.  The `file` field
stores `str(Path(file_path).relative_to(LIBRARY_DIR))`; we take the already
relativized path `file_rel`.  `register_tool` performs no file-system
operation, so `files` is untouched. -/
def register_tool (s : LibState) (name file_rel task_id generator_model : String)
    (verified : Bool) (verified_with now : String) : LibState :=
  { s with
    tools := s.tools.filter (fun t => t.name != name) ++
      [{ name := name
         file := file_rel
         generated_from_task := task_id
         generated_by_model := generator_model
         verified := some verified
         verified_with_model := verified_with
         created_at := now }] }

/-- `remove_tool` (`tool_library/__init__.py` lines 76-82): filter the
registry by name and save it, then unlink `GENERATED_DIR / f"{name}.py"` if
that file exists.  Note the unlink happens whether or not the registry had an
entry for `name`. -/
def remove_tool (s : LibState) (name : String) : LibState :=
  let s₁ : LibState := { s with tools := s.tools.filter (fun t => t.name != name) }
  let tool_path := "generated/" ++ name ++ ".py"
  if tool_path ∈ s₁.files then
    { s₁ with files := s₁.files.filter (fun f => f != tool_path) }
  else
    s₁

/-- Filtering out entries named `name` kills every entry named `name`. -/
theorem filter_ne_then_eq (name : String) (l : List ToolEntry) :
    (l.filter (fun t => t.name != name)).filter (fun t => t.name == name) = [] := by
  rw [List.filter_eq_nil_iff]
  intro t ht
  rcases List.mem_filter.mp ht with ⟨_, hne⟩
  simp only [bne_iff_ne, ne_eq] at hne
  simp [hne]

/-- Filtering by `name ≠ n` is idempotent. -/
theorem filter_ne_idem (name : String) (l : List ToolEntry) :
    ((l.filter (fun t => t.name != name)).filter (fun t => t.name != name)) =
      l.filter (fun t => t.name != name) := by
  rw [List.filter_eq_self]
  intro t ht
  exact (List.mem_filter.mp ht).2

/-- C10: `register_tool` preserves every entry whose name differs from the
given name, unchanged and in its original relative order (the sub-list of
differently-named entries of the result equals that of the input), and the
new entry — carrying the new file path and provenance — is appended at the
end of the tools list. -/
theorem c10_register_tool_frame (s : LibState) (name file_rel task_id gm : String)
    (v : Bool) (vw now : String) :
    ((register_tool s name file_rel task_id gm v vw now).tools.filter
        (fun t => t.name != name) = s.tools.filter (fun t => t.name != name)) ∧
    (register_tool s name file_rel task_id gm v vw now).tools.getLast? =
      some { name := name, file := file_rel, generated_from_task := task_id,
             generated_by_model := gm, verified := some v,
             verified_with_model := vw, created_at := now } := by
  constructor
  · simp only [register_tool, List.filter_append, filter_ne_idem]
    simp
  · simp only [register_tool]
    exact List.getLast?_concat _

/-- Concrete library state for the `register_tool` file-deletion
counterexample: one registry entry named `t` whose source artifact is
`generated/old.py`, and that artifact present on disk. -/
def c2_state : LibState :=
  { tools := [{ name := "t", file := "generated/old.py",
                generated_from_task := "task0", generated_by_model := "gpt-4o",
                verified := some true, verified_with_model := "gpt-4o-mini",
                created_at := "t0" }],
    files := ["generated/old.py"] }

/-- C2 counterexample: re-registering name `t` with a new source path does
NOT remove the prior entry's source file.  `register_tool` only rewrites the
registry; `generated/old.py` (the prior entry's artifact) still exists
afterwards, contradicting the claim that it "no longer exists on the
filesystem". -/
theorem c2_register_tool_keeps_old_file :
    "generated/old.py" ∈
      (register_tool c2_state "t" "generated/t.py" "task1" "gpt-4o"
        true "gpt-4o-mini" "t1").files := by
  simp [register_tool, c2_state]

/-- C2 amended: `register_tool` leaves exactly one entry with the given name,
pointing at the new source path, but it does not touch the file system at
all: the prior entry's source file persists unless the caller separately
overwrites or removes it. -/
theorem c2_register_tool_unique_entry (s : LibState)
    (name file_rel task_id gm : String) (v : Bool) (vw now : String) :
    ((register_tool s name file_rel task_id gm v vw now).tools.filter
        (fun t => t.name == name) =
      [{ name := name, file := file_rel, generated_from_task := task_id,
         generated_by_model := gm, verified := some v,
         verified_with_model := vw, created_at := now }]) ∧
    (register_tool s name file_rel task_id gm v vw now).files = s.files := by
  constructor
  · simp only [register_tool, List.filter_append, filter_ne_then_eq]
    simp
  · rfl

/-- C9 counterexample: removing a name that is **not** present in the
registry is not a no-op on the file system: with an empty registry and an
orphaned artifact `generated/x.py` on disk, `remove_tool "x"` still unlinks
the file, so the state changes. -/
theorem c9_remove_tool_not_noop_on_orphan :
    remove_tool { tools := [], files := ["generated/x.py"] } "x" ≠
      ({ tools := [], files := ["generated/x.py"] } : LibState) := by
  decide

/-- A path never survives filtering itself out of a file list. -/
theorem not_mem_filter_ne (path : String) (l : List String) :
    path ∉ l.filter (fun f => f != path) := by
  intro hmem
  rcases List.mem_filter.mp hmem with ⟨_, hne⟩
  simp at hne

/-- Closed form of `remove_tool` (the intermediate registry save does not
affect the file list, so the `exists` test reads the original file list). -/
theorem remove_tool_eq (s : LibState) (name : String) :
    remove_tool s name =
      { tools := s.tools.filter (fun t => t.name != name),
        files := if ("generated/" ++ name ++ ".py") ∈ s.files then
            s.files.filter (fun f => f != ("generated/" ++ name ++ ".py"))
          else s.files } := by
  unfold remove_tool
  by_cases h : ("generated/" ++ name ++ ".py") ∈ s.files
  · rw [if_pos h, if_pos h]
  · rw [if_neg h, if_neg h]

/-- After `remove_tool s name`, the artifact path `generated/name.py` is not
on disk. -/
theorem remove_tool_file_gone (s : LibState) (name : String) :
    ("generated/" ++ name ++ ".py") ∉ (remove_tool s name).files := by
  rw [remove_tool_eq]
  by_cases h : ("generated/" ++ name ++ ".py") ∈ s.files
  · simp [h, not_mem_filter_ne]
  · simp [h]

/-- C9 amended: `remove_tool` is idempotent (the second call changes nothing),
and removing a name that is not present in the registry is a no-op on the
registry and — provided no orphaned artifact `generated/name.py` exists on
disk — on the file system as well.  (If such an orphan exists, `remove_tool`
deletes it, as the counterexample shows.) -/
theorem c9_remove_tool_idempotent (s : LibState) (name : String) :
    remove_tool (remove_tool s name) name = remove_tool s name ∧
    ((∀ t ∈ s.tools, t.name ≠ name) →
      ("generated/" ++ name ++ ".py") ∉ s.files →
      remove_tool s name = s) := by
  constructor
  · by_cases h : ("generated/" ++ name ++ ".py") ∈ s.files
    · simp [remove_tool_eq, h, filter_ne_idem, not_mem_filter_ne]
    · simp [remove_tool_eq, h, filter_ne_idem]
  · intro habs hfile
    obtain ⟨tools, files⟩ := s
    have htools : tools.filter (fun t => t.name != name) = tools := by
      rw [List.filter_eq_self]
      intro t ht
      simpa using habs t ht
    simp only [remove_tool, htools]
    rw [if_neg hfile]

/-- C9 witness: a concrete state exercising the amended theorem — an entry
named `z` and its artifact on disk, and we remove the absent name `y`. -/
theorem c9_remove_tool_idempotent_witness :
    remove_tool (remove_tool c2_state "y") "y" = remove_tool c2_state "y" ∧
    remove_tool c2_state "y" = c2_state := by
  have h := c9_remove_tool_idempotent c2_state "y"
  exact ⟨h.1, h.2 (by decide) (by decide)⟩

/-! ### `load_tools` (`tool_library/__init__.py` lines 28-48)

`load_tools` walks the registry; for each entry it checks
`entry.get("verified")` for truthiness, checks that `LIBRARY_DIR /
entry["file"]` exists, then inside one `try`: executes the module, reads
`module.SCHEMA["function"]["name"]`, appends `module.SCHEMA` to the schema
list, and finally stores `getattr(module, name)` in the handler dict; any
exception skips the entry.  We model what the file system yields for a path
with `LoadOutcome`:

* `loadError` — the path's module raises during `exec_module` **or** the
  `SCHEMA["function"]["name"]` access raises: the exception fires before
  `schemas.append`, so nothing is recorded;
* `module schema fname hasFn` — execution succeeds and the name access
  yields `fname`; `schema` is an opaque rendering of the `SCHEMA` value.
  `hasFn` tells whether `getattr(module, fname)` succeeds.  Note that when
  it fails, the exception fires **after** `schemas.append`, so the schema
  stays in the list while no handler is added — the model mirrors that
  ordering.

Handler dicts are insertion-ordered association lists; re-assigning an
existing key overwrites in place, as for a Python `dict`. -/

inductive LoadOutcome where
  | loadError
  | module (schema : String) (fname : String) (hasFn : Bool)
  deriving DecidableEq, Repr

/-- Paths present under the library directory, with their load outcome.
Absence from the list models `not tool_path.exists()`. -/
abbrev ModuleFS := List (String × LoadOutcome)

/-- Python `dict` assignment `d[k] = v`: overwrite in place if the key
exists, otherwise append. -/
def dictInsert {α : Type} : List (String × α) → String → α → List (String × α)
  | [], k, v => [(k, v)]
  | (k', v') :: rest, k, v =>
    if k' = k then (k', v) :: rest else (k', v') :: dictInsert rest k v

/-- Truthiness of `entry.get("verified")`: only a stored `True` passes the
`if not entry.get("verified"): continue` guard. -/
def verified_truthy (v : Option Bool) : Bool := v == some true

/-- The loop body of `load_tools`, threading the `schemas` list and
`handlers` dict accumulators. -/
def load_tools_aux (fs : ModuleFS) :
    List ToolEntry → List String → List (String × String) →
      List String × List (String × String)
  | [], schemas, handlers => (schemas, handlers)
  | entry :: rest, schemas, handlers =>
    if !(verified_truthy entry.verified) then
      load_tools_aux fs rest schemas handlers
    else
      match fs.lookup entry.file with
      | none => load_tools_aux fs rest schemas handlers
      | some .loadError => load_tools_aux fs rest schemas handlers
      | some (.module schema fname hasFn) =>
        load_tools_aux fs rest (schemas ++ [schema])
          (if hasFn then dictInsert handlers fname entry.file else handlers)

/-- `load_tools`: returns `(schemas_list, handlers_dict)`. -/
def load_tools (registry : List ToolEntry) (fs : ModuleFS) :
    List String × List (String × String) :=
  load_tools_aux fs registry [] []

/-- The `load_tools` loop ignores entries that fail the verified check, for
any accumulator state. -/
theorem load_tools_aux_filter (fs : ModuleFS) (l : List ToolEntry) :
    ∀ schemas handlers,
      load_tools_aux fs l schemas handlers =
        load_tools_aux fs (l.filter (fun e => verified_truthy e.verified))
          schemas handlers := by
  induction l with
  | nil => intro schemas handlers; rfl
  | cons e rest ih =>
    intro schemas handlers
    cases hv : verified_truthy e.verified with
    | false => simp [load_tools_aux, List.filter_cons, hv, ih]
    | true =>
      cases hfind : fs.lookup e.file with
      | none => simp [load_tools_aux, List.filter_cons, hv, hfind, ih]
      | some o =>
        cases o with
        | loadError => simp [load_tools_aux, List.filter_cons, hv, hfind, ih]
        | module sch fn hf =>
          simp [load_tools_aux, List.filter_cons, hv, hfind, ih]

/-- C8: every registry entry whose `verified` flag is absent or not `true`
is excluded from both the schema list and the handler dict: `load_tools` on
any registry returns exactly what it returns on the registry restricted to
its verified entries. -/
theorem c8_load_tools_only_verified (registry : List ToolEntry) (fs : ModuleFS) :
    load_tools registry fs =
      load_tools (registry.filter (fun e => verified_truthy e.verified)) fs :=
  load_tools_aux_filter fs registry [] []

/-! ### Toolsets of the pipeline's runs
(`evals/harness.py`, `tool_gen/pipeline.py`)

Schemas are represented by an opaque rendering (we use the tool's function
name, which identifies the built-in schemas uniquely). -/

/-- The three built-in schemas bound in `_build_toolbox` (`harness.py`
line 54): `read_file_schema, write_file_schema, run_shell_schema`. -/
def base_schemas : List String := ["read_file", "write_file", "run_shell"]

/-- The part of `EvalHarness` that determines a run's toolset: the
`extra_tools` pair `(schemas, handlers)`, whose constructor default is
`None` (`harness.py` lines 66-72). -/
structure EvalHarness where
  extra_tools : Option (List String × List (String × String))

/-- The schema list `run_task` hands to the agent (`harness.py` lines
83-87): the built-ins, extended with `extra_schemas` when `extra_tools` was
supplied. -/
def EvalHarness.run_task_schemas (h : EvalHarness) : List String :=
  match h.extra_tools with
  | none => base_schemas
  | some (extra, _) => base_schemas ++ extra

/-- The harness built by `run_pipeline` (`tool_gen/pipeline.py` lines
200-201): `EvalHarness(client=cheap_client, verbose=verbose,
model_name=cheap_model)` — `extra_tools` is left at its default `None`. -/
def pipeline_initial_harness : EvalHarness := { extra_tools := none }

/-- Toolset of `run_pipeline`'s initial run (`pipeline.py` line 202,
`harness.run_task(task)`).  The current registry and disk state are
parameters so the claim's quantification over library states can be
expressed; the construction never consults them. -/
def run_pipeline_initial_schemas (_registry : List ToolEntry) (_fs : ModuleFS) :
    List String :=
  pipeline_initial_harness.run_task_schemas

/-- Registry holding one verified capability produced by an earlier task. -/
def c1_registry : List ToolEntry :=
  [{ name := "my_tool", file := "generated/my_tool.py",
     generated_from_task := "earlier_task", generated_by_model := "gpt-4o",
     verified := some true, verified_with_model := "gpt-4o-mini",
     created_at := "t0" }]

/-- Disk state in which that capability's module loads cleanly. -/
def c1_fs : ModuleFS :=
  [("generated/my_tool.py", .module "my_tool" "my_tool" true)]

/-- C1 counterexample: a verified capability registered during the session
is materialized by `load_tools`, yet `run_pipeline`'s initial run does not
receive its schema: the initial `EvalHarness` is constructed without
`extra_tools`, so the initial toolset is only the three built-ins. -/
theorem c1_initial_run_misses_registered_tool :
    "my_tool" ∈ (load_tools c1_registry c1_fs).1 ∧
    "my_tool" ∉ run_pipeline_initial_schemas c1_registry c1_fs := by
  constructor
  · decide
  · decide

/-- C1 amended: for every library state — whatever capabilities are
currently registered — `run_pipeline`'s initial run hands the agent exactly
the three built-in schemas: the initial `EvalHarness` is constructed without
`extra_tools`, so its `run_task` never consults the registry.  (Nothing is
asserted about the retry runs' toolsets: `_run_with_library_tools` raises
before building one — `pipeline.py` line 106 calls
`tool_library.load_tool_usage_examples`, which `tool_library/__init__.py`
does not define, and line 113 calls `_build_toolbox` without its required
`command_runner` argument.) -/
theorem c1_initial_toolset_only_builtins (registry : List ToolEntry)
    (fs : ModuleFS) :
    run_pipeline_initial_schemas registry fs = base_schemas := rfl

/-! ### The generation loop of `run_pipeline` cannot start
(`tool_gen/pipeline.py` lines 220-232)

The first statement of every iteration of
`for attempt in range(1, max_attempts + 1)` is line 224,
`existing_tools = tool_library.load_tool_summaries()`.  The `tool_library`
module (`tool_library/__init__.py`) defines no such attribute, so every
generation attempt raises `AttributeError` there — before any generation,
validation, registration, retry, or eviction.  (Were line 224 repaired,
line 232 would raise `TypeError`: `generate_tool` (`generator.py` line 147)
accepts no `existing_tools` keyword; and the retry call
`_run_with_library_tools` raises at lines 106 and 113, as noted with C1.)
We model the module's attribute table by its defined top-level names and
the loop entry as the attribute access it performs. -/

/-- The module-level names `tool_library/__init__.py` defines: three path
constants and eight functions.  `load_tool_summaries`,
`load_tool_usage_examples` and `clear_all` are absent. -/
def tool_library_module_names : List String :=
  ["LIBRARY_DIR", "GENERATED_DIR", "REGISTRY_PATH",
   "_load_registry", "_save_registry", "_load_tool_module",
   "load_tools", "register_tool", "mark_verified", "remove_tool",
   "list_tools"]

/-- Python attribute access `tool_library.<attr>`: a defined name resolves,
an undefined one raises `AttributeError`. -/
def tool_library_getattr (attr : String) : Except String String :=
  if attr ∈ tool_library_module_names then .ok attr
  else .error ("AttributeError: module 'tool_library' has no attribute '"
    ++ attr ++ "'")

/-- The first statement executed by each iteration of `run_pipeline`'s
attempt loop (`pipeline.py` line 224): the attribute access performed by
`tool_library.load_tool_summaries()`. -/
def run_pipeline_attempt_entry : Except String String :=
  tool_library_getattr "load_tool_summaries"

/-- C3: evaluation of the code at the failing input (any task whose initial
run fails, first generation attempt).  The claimed register-before-retry /
evict-on-fail cycle — which lines 250-291 of the loop body themselves spell
out — is unreachable: the loop's first statement raises `AttributeError`,
so no generated capability is ever validated, registered, retried, or
evicted. -/
theorem c3_generation_attempt_raises :
    run_pipeline_attempt_entry = .error
      "AttributeError: module 'tool_library' has no attribute 'load_tool_summaries'" := by
  rfl

/-! ### Generation feedback redaction (`tool_gen/pipeline.py` lines 47-73) -/

/-- One trajectory step (`evals/task.py`, `ToolCallRecord`).  Argument
values are strings (the built-in tools take string arguments); the
`duration_ms` field is wall-clock data no claim depends on and is omitted. -/
structure ToolCallRecord where
  name : String
  args : List (String × String)
  result : String
  deriving DecidableEq, Repr

/-- `TaskResult` (`evals/task.py`), restricted to the fields the pipeline's
feedback construction and claims read.  `error` is `None` or the stringized
agent exception. -/
structure TaskResult where
  task_id : String
  passed : Bool
  verify_message : String
  trajectory : List ToolCallRecord
  final_response : String
  model : String
  input_tokens : Nat
  output_tokens : Nat
  error : Option String
  deriving DecidableEq, Repr

/-- Python's `needle in hay` for a nonempty needle: splitting on the needle
yields more than one piece exactly when it occurs. -/
def strContains (hay needle : String) : Bool :=
  decide ((hay.splitOn needle).length > 1)

/-- The error markers scanned for in `run_shell` outputs
(`pipeline.py` line 53). -/
def error_markers : List String :=
  ["Traceback", "AssertionError", "FAILED", "Error:", "Exit code:"]

/-- The collection loop of `_extract_agent_observable_signals` (lines
48-55): for every `run_shell` step whose output contains a marker, the block
`$ {command}\n{output[:800]}`.  (`tc.result or ""` equals `tc.result` for
string results; `tc.args` is always a dict in this model, so the
`isinstance` guard's else-branch does not arise.) -/
def signal_lines (trajectory : List ToolCallRecord) : List String :=
  trajectory.filterMap (fun tc =>
    if tc.name != "run_shell" then none
    else
      let output := tc.result
      if error_markers.any (fun token => strContains output token) then
        some ("$ " ++ ((tc.args.lookup "command").getD "") ++ "\n" ++
          output.take 800)
      else none)

/-- `_extract_agent_observable_signals` (lines 47-59): the last four blocks
joined by blank lines, truncated to `max_chars`; a fixed sentence when no
block was collected. -/
def extract_agent_observable_signals (task_result : TaskResult)
    (max_chars : Nat) : String :=
  let lines := signal_lines task_result.trajectory
  if lines.isEmpty then
    "No explicit self-test failure logs were observed in run_shell outputs."
  else
    (String.intercalate "\n\n" (lines.drop (lines.length - 4))).take max_chars

/-- `_generation_feedback` (lines 62-73): the raw verifier message when
allowed, otherwise the redacted summary built from the agent runtime error
and the observable signals. -/
def generation_feedback (task_result : TaskResult)
    (allow_verifier_feedback : Bool) : String :=
  if allow_verifier_feedback then
    task_result.verify_message
  else
    let runtime_error :=
      match task_result.error with
      | none => ""
      | some e => if e = "" then "" else "\nAgent runtime error: " ++ e
    let signals := extract_agent_observable_signals task_result 3000
    "Hidden verifier result: FAIL.\n" ++
    "Do not assume access to hidden tests. Infer likely failure modes from the agent's own actions.\n" ++
    runtime_error ++ "\n\n" ++
    "Agent-observable signals:\n" ++
    signals

/-- C6: with verifier feedback disallowed, the feedback handed to the
generator is a function of the trajectory (its `run_shell` outputs) and the
recorded agent runtime error alone: two failed task results agreeing on
those — in particular two that differ only in their hidden verification
message — produce identical feedback strings, so the verifier message cannot
leak into the generation prompt. -/
theorem c6_feedback_no_verifier_leak (r₁ r₂ : TaskResult)
    (htraj : r₁.trajectory = r₂.trajectory) (herr : r₁.error = r₂.error) :
    generation_feedback r₁ false = generation_feedback r₂ false := by
  simp [generation_feedback, extract_agent_observable_signals, htraj, herr]

/-- A failed run whose shell output shows a traceback. -/
def c6_result_a : TaskResult :=
  { task_id := "t", passed := false,
    verify_message := "hidden test: expected 42, got 41",
    trajectory := [{ name := "run_shell",
                     args := [("command", "python test.py")],
                     result := "Traceback (most recent call last): boom" }],
    final_response := "done", model := "gpt-4o-mini",
    input_tokens := 10, output_tokens := 5, error := none }

/-- The same run with a different hidden verifier message. -/
def c6_result_b : TaskResult :=
  { c6_result_a with verify_message := "hidden test: solution.py missing" }

/-- C6 witness: the two concrete results differ in their verifier message
yet yield the same redacted feedback. -/
theorem c6_feedback_no_verifier_leak_witness :
    generation_feedback c6_result_a false = generation_feedback c6_result_b false ∧
    c6_result_a.verify_message ≠ c6_result_b.verify_message :=
  ⟨c6_feedback_no_verifier_leak c6_result_a c6_result_b rfl rfl, by decide⟩

/-! ### The validator `_validate_tool_code` (`tool_gen/pipeline.py` lines
76-100)

`exec(code, namespace)` runs arbitrary Python; we model its outcome as
either an exception (caught on lines 78-81) or the resulting namespace, a
string-keyed map of Python values.  `PyVal` models the values the validator
inspects; `func` marks callables.  The `USAGE_EXAMPLE` warning on lines
97-98 only prints and cannot change the returned value, so it is not
modelled. -/

inductive PyVal where
  | none
  | bool (b : Bool)
  | int (n : Int)
  | str (s : String)
  | pdict (entries : List (String × PyVal))
  | plist (elems : List PyVal)
  | func (id : String)

abbrev PyNamespace := List (String × PyVal)

/-- Python truthiness, as used by `if not func_name`. -/
def pyTruthy : PyVal → Bool
  | .none => false
  | .bool b => b
  | .int n => n != 0
  | .str s => s != ""
  | .pdict entries => !entries.isEmpty
  | .plist elems => !elems.isEmpty
  | .func _ => true

/-- `callable(x)`. -/
def pyCallable : PyVal → Bool
  | .func _ => true
  | _ => false

/-- The Python type name, for exception messages. -/
def pyTypeName : PyVal → String
  | .none => "NoneType"
  | .bool _ => "bool"
  | .int _ => "int"
  | .str _ => "str"
  | .pdict _ => "dict"
  | .plist _ => "list"
  | .func _ => "function"

/-- `str(x)`, for the f-string rendering of a non-string function name.
(The container branches are never reached by the validator: a truthy
container name raises before rendering.) -/
def pyStr : PyVal → String
  | .none => "None"
  | .bool true => "True"
  | .bool false => "False"
  | .int n => toString n
  | .str s => s
  | .pdict _ => "<dict>"
  | .plist _ => "<list>"
  | .func id => "<function " ++ id ++ ">"

/-- Outcome of `exec(code, namespace)`: an exception, or the populated
namespace. -/
inductive ExecOutcome where
  | raises (msg : String)
  | produces (ns : PyNamespace)

/-- `_validate_tool_code`, line by line.  `Except.error` models an exception
escaping to the caller; `Except.ok (b, r)` is the returned pair.
`schema.get("function", {})` and `.get("name")` require dicts — on any other
value the attribute access raises `AttributeError`, uncaught.  Membership
`func_name not in namespace` hashes the name: an unhashable container raises
`TypeError`; other non-string values are simply not among the string keys,
giving the "not defined" result. -/
def validate_tool_code (outcome : ExecOutcome) : Except String (Bool × String) :=
  match outcome with
  | .raises msg => .ok (false, "Code execution error: " ++ msg)
  | .produces ns =>
    match ns.lookup "SCHEMA" with
    | .none => .ok (false, "Missing SCHEMA definition")
    | some schema =>
      match schema with
      | .pdict d =>
        match (d.lookup "function").getD (.pdict []) with
        | .pdict fd =>
          let func_name := (fd.lookup "name").getD .none
          if !(pyTruthy func_name) then
            .ok (false, "SCHEMA missing function.name")
          else
            match func_name with
            | .str fn =>
              match ns.lookup fn with
              | .none => .ok (false, "Function '" ++ fn ++ "' not defined")
              | some v =>
                if pyCallable v then .ok (true, fn)
                else .ok (false, "'" ++ fn ++ "' is not callable")
            | .pdict _ => .error "TypeError: unhashable type: 'dict'"
            | .plist _ => .error "TypeError: unhashable type: 'list'"
            | other => .ok (false, "Function '" ++ pyStr other ++ "' not defined")
        | fval => .error ("AttributeError: '" ++ pyTypeName fval ++
            "' object has no attribute 'get'")
      | _ => .error ("AttributeError: '" ++ pyTypeName schema ++
          "' object has no attribute 'get'")

/-- C4 counterexample: the source `SCHEMA = 5` executes fine, leaving the
namespace `{SCHEMA: 5}`; then `schema.get("function", {})` raises
`AttributeError`, which `_validate_tool_code` does not catch — the caller
sees an exception, not a `(False, reason)` pair. -/
theorem c4_validator_raises_on_nondict_schema :
    validate_tool_code (.produces [("SCHEMA", PyVal.int 5)]) =
      .error "AttributeError: 'int' object has no attribute 'get'" := by
  rfl

/-- The shape condition under which the validator's dict accesses cannot
raise: `SCHEMA`, when present, is a dict; its `function` value (defaulting
to the empty dict) is a dict; and the `name` value is not a nonempty
container (an empty one is falsy and caught by the truthiness check). -/
def schema_access_safe (ns : PyNamespace) : Bool :=
  match ns.lookup "SCHEMA" with
  | .none => true
  | some (.pdict d) =>
    match (d.lookup "function").getD (.pdict []) with
    | .pdict fd =>
      match (fd.lookup "name").getD .none with
      | .pdict es => es.isEmpty
      | .plist es => es.isEmpty
      | _ => true
    | _ => false
  | some _ => false

/-- Result-pair test for the validator's return type. -/
def isOkB : Except String (Bool × String) → Bool
  | .ok _ => true
  | .error _ => false

/-- C4 amended: any error raised while executing the candidate source is
reported as `(False, "Code execution error: ...")`, and a missing `SCHEMA`,
a missing or falsy function name, a missing function, or a non-callable
value are reported as `(False, reason)` — provided the `SCHEMA` value has
the dict shape the accessors assume.  When `SCHEMA` (or its `function`
field) is not a dict, or the function name is an unhashable container, the
exception propagates to the caller (see the counterexample). -/
theorem c4_validator_total_on_safe_schema :
    (∀ msg, validate_tool_code (.raises msg) =
      .ok (false, "Code execution error: " ++ msg)) ∧
    (∀ ns, schema_access_safe ns = true →
      isOkB (validate_tool_code (.produces ns)) = true) := by
  constructor
  · intro msg
    rfl
  · intro ns
    simp only [validate_tool_code]
    unfold schema_access_safe
    cases hl : ns.lookup "SCHEMA" with
    | none => intro _; rfl
    | some schema =>
      cases schema with
      | pdict d =>
        dsimp only
        cases hf : (d.lookup "function").getD (.pdict []) with
        | pdict fd =>
          dsimp only
          cases hn : (fd.lookup "name").getD .none with
          | str fn =>
            intro _
            cases ht : pyTruthy (PyVal.str fn) with
            | false => simp [ht, isOkB]
            | true =>
              cases hfn : ns.lookup fn with
              | none => simp [ht, hfn, isOkB]
              | some v => cases hv : pyCallable v <;> simp [ht, hfn, hv, isOkB]
          | none => intro _; rfl
          | bool b => intro _; cases b <;> rfl
          | int n =>
            intro _
            cases ht : pyTruthy (PyVal.int n) with
            | false => simp [ht, isOkB]
            | true => simp [ht, isOkB]
          | func id => intro _; rfl
          | pdict es =>
            intro hsafe
            replace hsafe : es.isEmpty = true := hsafe
            rcases List.isEmpty_iff.mp hsafe with rfl
            rfl
          | plist es =>
            intro hsafe
            replace hsafe : es.isEmpty = true := hsafe
            rcases List.isEmpty_iff.mp hsafe with rfl
            rfl
        | none => intro hsafe; simp at hsafe
        | bool b => intro hsafe; simp at hsafe
        | int n => intro hsafe; simp at hsafe
        | str s => intro hsafe; simp at hsafe
        | plist es => intro hsafe; simp at hsafe
        | func id => intro hsafe; simp at hsafe
      | none => intro hsafe; simp at hsafe
      | bool b => intro hsafe; simp at hsafe
      | int n => intro hsafe; simp at hsafe
      | str s => intro hsafe; simp at hsafe
      | plist es => intro hsafe; simp at hsafe
      | func id => intro hsafe; simp at hsafe

/-- A well-formed generated-tool namespace: a proper `SCHEMA` and a callable
of the named function. -/
def c4_good_ns : PyNamespace :=
  [("SCHEMA", .pdict [("function", .pdict [("name", .str "build_fsm"),
      ("description", .str "builds a state machine")])]),
   ("build_fsm", .func "build_fsm")]

/-- C4 witness: an execution error is reported as a pair, and the
well-formed namespace validates without an exception. -/
theorem c4_validator_total_on_safe_schema_witness :
    validate_tool_code (.raises "boom") =
      .ok (false, "Code execution error: " ++ "boom") ∧
    isOkB (validate_tool_code (.produces c4_good_ns)) = true :=
  ⟨c4_validator_total_on_safe_schema.1 "boom",
   c4_validator_total_on_safe_schema.2 c4_good_ns rfl⟩

/-! ### Capability dispatch (`evals/harness.py` `_build_toolbox` lines
18-62; `agent_loop/tools/__init__.py` `dispatch` lines 14-17)

Each built-in handler body catches its internal exceptions and returns a
string (`read_file`/`write_file` wrap their bodies in `try/except` returning
`"Error: ..."`; `run_shell` builds its result from a `CommandResult` that
carries timeouts and errors as data), so bodies are modelled as total
`String`-valued functions, kept abstract.  What `return handlers[name](**args)`
can still raise is the keyword binding itself: a missing required parameter
or an unexpected keyword raises `TypeError` before the body runs, and
neither dispatcher guards that call. -/

abbrev Args := List (String × String)

/-- Keyword binding against a parameter list with no defaults and no
`**kwargs`: every parameter supplied, no extra keyword. -/
def binds_kwargs (params : List String) (args : Args) : Bool :=
  params.all (fun p => (args.lookup p).isSome) &&
    args.all (fun kv => params.contains kv.1)

/-- The built-in handlers' parameter lists — identical for the closures in
`_build_toolbox` and the module functions behind `_HANDLERS`:
`read_file(path)`, `write_file(path, content)`, `run_shell(command)`. -/
def toolbox_params : List (String × List String) :=
  [("read_file", ["path"]), ("write_file", ["path", "content"]),
   ("run_shell", ["command"])]

/-- `handlers[name](**args)`: binding failure raises `TypeError`; otherwise
the (total) body returns a string. -/
def call_kwargs (params : List String) (body : Args → String) (args : Args) :
    Except String String :=
  if binds_kwargs params args then .ok (body args)
  else .error "TypeError: arguments do not bind to handler parameters"

/-- The `dispatch` closure returned by `_build_toolbox` (`harness.py` lines
57-60): unknown names return the descriptive string; known names call the
handler via keyword binding. -/
def build_toolbox_dispatch (bodies : String → Args → String)
    (name : String) (args : Args) : Except String String :=
  match toolbox_params.lookup name with
  | .none => .ok ("Unknown tool: " ++ name)
  | some params => call_kwargs params (bodies name) args

/-- `dispatch` of `agent_loop/tools/__init__.py` (lines 14-17): the same
guard against `_HANDLERS`, with the same three names and signatures. -/
def tools_dispatch (bodies : String → Args → String)
    (name : String) (args : Args) : Except String String :=
  match toolbox_params.lookup name with
  | .none => .ok ("Unknown tool: " ++ name)
  | some params => call_kwargs params (bodies name) args

/-- C5 counterexample: the known name `read_file` with an empty argument
dict raises `TypeError` — `read_file(**{})` lacks the required `path` —
instead of returning a string, for any handler bodies. -/
theorem c5_dispatch_raises_on_bad_args :
    build_toolbox_dispatch (fun _ _ => "") "read_file" [] =
      .error "TypeError: arguments do not bind to handler parameters" := by
  rfl

/-- C5 amended: both dispatchers return the descriptive
`Unknown tool: <name>` string for unknown names (never raising), and return
the handler body's string for any known name whose argument dict binds to
the handler's parameters; an argument dict that does not bind raises
`TypeError` (see the counterexample), the one unguarded path. -/
theorem c5_dispatch_total_on_binding_args (bodies : String → Args → String)
    (name : String) (args : Args) :
    (toolbox_params.lookup name = none →
      build_toolbox_dispatch bodies name args = .ok ("Unknown tool: " ++ name) ∧
      tools_dispatch bodies name args = .ok ("Unknown tool: " ++ name)) ∧
    (∀ params, toolbox_params.lookup name = some params →
      binds_kwargs params args = true →
      build_toolbox_dispatch bodies name args = .ok (bodies name args) ∧
      tools_dispatch bodies name args = .ok (bodies name args)) := by
  constructor
  · intro h
    constructor <;> simp [build_toolbox_dispatch, tools_dispatch, h]
  · intro params hp hb
    constructor <;>
      simp [build_toolbox_dispatch, tools_dispatch, hp, call_kwargs, hb]

/-- C5 witness: an unknown name yields the descriptive string, and
`read_file` with a binding argument dict yields its body's result. -/
theorem c5_dispatch_total_on_binding_args_witness :
    build_toolbox_dispatch (fun _ _ => "ok") "unknown_tool" [] =
      .ok ("Unknown tool: " ++ "unknown_tool") ∧
    build_toolbox_dispatch (fun _ _ => "ok") "read_file" [("path", "a.txt")] =
      .ok "ok" :=
  ⟨((c5_dispatch_total_on_binding_args (fun _ _ => "ok") "unknown_tool" []).1
      rfl).1,
   ((c5_dispatch_total_on_binding_args (fun _ _ => "ok") "read_file"
      [("path", "a.txt")]).2 ["path"] rfl (by decide)).1⟩

/-! ### The agent conversation loop (`agent_loop/agent.py`, `Agent.run`
lines 129-171; `evals/harness.py`, `recording_dispatch` lines 100-109)

`client.chat` is an external inference call; along any single run its
responses form a per-turn script, modelled as a stream consumed one response
per turn.  The capability resolver (`dispatch_fn`) threads a state `σ` —
for the harness's `recording_dispatch`, the growing trajectory list — and
returns the result string.  `verbose` printing changes no returned data and
is not modelled. -/

/-- One requested invocation (`agent.py`, `ToolCall`). -/
structure ToolCall where
  id : String
  name : String
  args : Args
  deriving DecidableEq, Repr

/-- One model response (`agent.py`, `AgentResponse`); `raw_message` is the
response itself, recorded in the conversation as an assistant message. -/
structure AgentResponse where
  content : Option String
  tool_calls : List ToolCall
  input_tokens : Nat
  output_tokens : Nat
  deriving DecidableEq, Repr

/-- The run outcome (`agent.py`, `AgentResult`). -/
structure AgentResult where
  content : String
  input_tokens : Nat
  output_tokens : Nat
  deriving DecidableEq, Repr

/-- Conversation messages: the fixed system directive, the user task, the
assistant's raw message, and one tool-result message per invocation. -/
inductive Msg where
  | system (content : String)
  | user (content : String)
  | assistant (response : AgentResponse)
  | tool (tool_call_id : String) (content : String)
  deriving DecidableEq, Repr

/-- `SYSTEM_PROMPT` (`agent.py` lines 10-18). -/
def system_prompt : String :=
  "You are a coding agent. You have tools to read files, write files, and run shell commands.\n\nAll files you create and shell commands you run operate inside the workspace: agent/created_files/\nUse relative paths (e.g. \"solution.py\") and they will be placed there automatically.\n\nWork step by step. Use tools to explore and gather information before making changes.\nWhen the task is complete, give a clear summary of what you did without calling any more tools."

/-- The sentinel returned when the iteration budget is exhausted
(`agent.py` line 168). -/
def max_iter_sentinel : String :=
  "Reached maximum iterations without completing the task."

/-- `response.content or "(no response)"`: Python `or` replaces both `None`
and the empty string. -/
def content_or_default : Option String → String
  | none => "(no response)"
  | some c => if c = "" then "(no response)" else c

/-- The inner `for tc in response.tool_calls` loop (`agent.py` lines
151-165): dispatch each invocation in order, appending one tool-result
message per request. -/
def dispatch_turn {σ : Type} (dispatch : σ → String → Args → String × σ) :
    List ToolCall → List Msg → σ → List Msg × σ
  | [], msgs, st => (msgs, st)
  | tc :: rest, msgs, st =>
    let call := dispatch st tc.name tc.args
    dispatch_turn dispatch rest (msgs ++ [Msg.tool tc.id call.1]) call.2

/-- The turn loop of `Agent.run` (`agent.py` lines 138-171), by remaining
iterations.  Each turn consumes the head of the response stream, appends the
assistant message, accumulates the token counters, returns the content when
no invocation was requested, and otherwise dispatches all invocations and
advances; an exhausted budget returns the sentinel with the accumulated
counters. -/
def agent_run_aux {σ : Type} (dispatch : σ → String → Args → String × σ) :
    Nat → (Nat → AgentResponse) → List Msg → Nat → Nat → σ →
      AgentResult × List Msg × σ
  | 0, _, msgs, tin, tout, st =>
    (⟨max_iter_sentinel, tin, tout⟩, msgs, st)
  | remaining + 1, script, msgs, tin, tout, st =>
    let response := script 0
    let msgs := msgs ++ [Msg.assistant response]
    let tin := tin + response.input_tokens
    let tout := tout + response.output_tokens
    if response.tool_calls.isEmpty then
      (⟨content_or_default response.content, tin, tout⟩, msgs, st)
    else
      let res := dispatch_turn dispatch response.tool_calls msgs st
      agent_run_aux dispatch remaining (fun i => script (i + 1)) res.1 tin tout res.2

/-- `Agent.run(task)`: the conversation starts with the system directive and
the task as the user message; counters start at zero. -/
def agent_run {σ : Type} (script : Nat → AgentResponse)
    (dispatch : σ → String → Args → String × σ)
    (max_iterations : Nat) (task : String) (st : σ) :
    AgentResult × List Msg × σ :=
  agent_run_aux dispatch max_iterations script
    [Msg.system system_prompt, Msg.user task] 0 0 st

/-- `recording_dispatch` of `EvalHarness.run_task` (`harness.py` lines
100-109): call the underlying dispatch and append exactly one
`ToolCallRecord` per invocation (its wall-clock `duration_ms` is omitted). -/
def recording_dispatch (base : String → Args → String) :
    List ToolCallRecord → String → Args → String × List ToolCallRecord :=
  fun traj name args =>
    let result := base name args
    (result, traj ++ [{ name := name, args := args, result := result }])

/-- Dispatching a turn under `recording_dispatch` grows the trajectory by
exactly one record per invocation. -/
theorem dispatch_turn_recording_length (base : String → Args → String)
    (tcs : List ToolCall) :
    ∀ (msgs : List Msg) (traj : List ToolCallRecord),
      ((dispatch_turn (recording_dispatch base) tcs msgs traj).2).length
        = traj.length + tcs.length := by
  induction tcs with
  | nil => intro msgs traj; rfl
  | cons tc rest ih =>
    intro msgs traj
    simp only [dispatch_turn, recording_dispatch]
    rw [ih]
    simp
    omega

/-- Loop invariant for runs whose every remaining turn requests exactly `k`
invocations: the budget is exhausted, the sentinel is returned, counters
accumulate the scripted usage, and the trajectory grows by `k` per turn. -/
theorem agent_run_aux_exhausts (base : String → Args → String) (k : Nat)
    (hk : 0 < k) :
    ∀ (remaining : Nat) (script : Nat → AgentResponse) (msgs : List Msg)
      (tin tout : Nat) (traj : List ToolCallRecord),
      (∀ i < remaining, (script i).tool_calls.length = k) →
      (agent_run_aux (recording_dispatch base) remaining script msgs tin tout
          traj).1.content = max_iter_sentinel ∧
      (agent_run_aux (recording_dispatch base) remaining script msgs tin tout
          traj).1.input_tokens
        = tin + ∑ i in Finset.range remaining, (script i).input_tokens ∧
      (agent_run_aux (recording_dispatch base) remaining script msgs tin tout
          traj).1.output_tokens
        = tout + ∑ i in Finset.range remaining, (script i).output_tokens ∧
      ((agent_run_aux (recording_dispatch base) remaining script msgs tin tout
          traj).2.2).length = traj.length + remaining * k := by
  intro remaining
  induction remaining with
  | zero =>
    intro script msgs tin tout traj _
    simp [agent_run_aux]
  | succ r ih =>
    intro script msgs tin tout traj h
    have h0 : (script 0).tool_calls.length = k := h 0 (Nat.succ_pos r)
    cases htc : (script 0).tool_calls with
    | nil =>
      rw [htc] at h0
      simp at h0
      omega
    | cons tc rest =>
      rw [htc] at h0
      have hrec := ih (fun i => script (i + 1))
        ((dispatch_turn (recording_dispatch base) (tc :: rest)
          (msgs ++ [Msg.assistant (script 0)]) traj).1)
        (tin + (script 0).input_tokens) (tout + (script 0).output_tokens)
        ((dispatch_turn (recording_dispatch base) (tc :: rest)
          (msgs ++ [Msg.assistant (script 0)]) traj).2)
        (fun i hi => h (i + 1) (Nat.succ_lt_succ hi))
      dsimp only at hrec
      have hlen := dispatch_turn_recording_length base (tc :: rest)
        (msgs ++ [Msg.assistant (script 0)]) traj
      simp only [agent_run_aux, htc, List.isEmpty_cons, Bool.false_eq_true,
        if_false]
      refine ⟨hrec.1, ?_, ?_, ?_⟩
      · rw [hrec.2.1, Finset.sum_range_succ']
        omega
      · rw [hrec.2.2.1, Finset.sum_range_succ']
        omega
      · rw [hrec.2.2.2, hlen, Nat.succ_mul]
        omega

/-- C7: when the model requests at least one invocation — exactly `k`, for
any `k ≥ 1` — on each of the `max_iterations` turns, `Agent.run` returns
(does not raise) the fixed sentinel content, its token counters equal the
sums of the per-turn usage over all turns, and the harness's recorded
trajectory holds exactly one entry per dispatched invocation:
`max_iterations * k` entries. -/
theorem c7_agent_run_exhausts_iterations (script : Nat → AgentResponse)
    (base : String → Args → String) (max_iterations k : Nat) (task : String)
    (hk : 0 < k)
    (h : ∀ i < max_iterations, (script i).tool_calls.length = k) :
    (agent_run script (recording_dispatch base) max_iterations task
        []).1.content = max_iter_sentinel ∧
    (agent_run script (recording_dispatch base) max_iterations task
        []).1.input_tokens
      = ∑ i in Finset.range max_iterations, (script i).input_tokens ∧
    (agent_run script (recording_dispatch base) max_iterations task
        []).1.output_tokens
      = ∑ i in Finset.range max_iterations, (script i).output_tokens ∧
    ((agent_run script (recording_dispatch base) max_iterations task
        []).2.2).length = max_iterations * k := by
  have haux := agent_run_aux_exhausts base k hk max_iterations script
    [Msg.system system_prompt, Msg.user task] 0 0 [] h
  refine ⟨haux.1, ?_, ?_, ?_⟩
  · rw [agent_run, haux.2.1]; omega
  · rw [agent_run, haux.2.2.1]; omega
  · rw [agent_run, haux.2.2.2]; simp

/-- A model that requests one `run_shell` invocation every turn. -/
def c7_script : Nat → AgentResponse := fun _ =>
  { content := none,
    tool_calls := [{ id := "call_1", name := "run_shell",
                     args := [("command", "ls")] }],
    input_tokens := 3, output_tokens := 2 }

def c7_base : String → Args → String := fun _ _ => "out"

/-- C7 witness: two turns of one invocation each exhaust a budget of two,
returning the sentinel with summed counters and a two-entry trajectory. -/
theorem c7_agent_run_exhausts_iterations_witness :
    (agent_run c7_script (recording_dispatch c7_base) 2 "solve it"
        []).1.content = max_iter_sentinel ∧
    ((agent_run c7_script (recording_dispatch c7_base) 2 "solve it"
        []).2.2).length = 2 * 1 := by
  have h := c7_agent_run_exhausts_iterations c7_script c7_base 2 1 "solve it"
    (by decide) (fun i _ => rfl)
  exact ⟨h.1, h.2.2.2⟩

end Spec2Proof
